import Mathlib

/-!
Verification of `src/app/modules/builder.py` (ragbx/python-12-jours-appli).

The module classifies JSON-like Python values (scalars, lists/tuples,
dicts) and transforms them into tree-widget items, plus a small schema
checker and a namedtuple model factory.  We embed the Python functions
shallowly: Python values become the inductive `PyVal`, Python exceptions
become the `PyError` type, and every function that can raise returns
`Except PyError _`.  Python's left-to-right short-circuit evaluation of
`or`/`and` and the evaluation order of `assert` are modelled exactly.
-/

/-- The runtime type of a Python value, as captured by `type(val)` in
`ItemObj.set_value_type`. -/
inductive PyType where
  | strT
  | intT
  | floatT
  | boolT
  | noneT
  | listT
  | tupleT
  | dictT
  | objT
deriving DecidableEq

/-- A JSON-like Python value.  `float` carries the decimal string that
`str()` would print for it (the module never computes with floats, it only
type-tests and stringifies them).  `obj` stands for any other object
(a custom instance, a set, a function, ...). -/
inductive PyVal where
  | str (s : String)
  | int (n : Int)
  | float (repr : String)
  | bool (b : Bool)
  | none
  | list (xs : List PyVal)
  | tuple (xs : List PyVal)
  | dict (entries : List (PyVal × PyVal))
  | obj

/-- Python exceptions that the module's code paths can raise, plus
(`unsupportedValue`, `invalidLabel`, `depthExceeded`) the error kinds named
by the specification's error-handling design.  Modelled from the spec:
those three classes appear nowhere in the source; they are included only so
that claims about them can be stated. -/
inductive PyError where
  | typeError
  | unboundLocal
  | assertionError
  | keyError
  | attributeError
  | valueError (msg : String)
  | unsupportedValue
  | invalidLabel
  | depthExceeded
deriving DecidableEq

/-- `type(v)` of a value. -/
def pyType : PyVal → PyType
  | PyVal.str _ => PyType.strT
  | PyVal.int _ => PyType.intT
  | PyVal.float _ => PyType.floatT
  | PyVal.bool _ => PyType.boolT
  | PyVal.none => PyType.noneT
  | PyVal.list _ => PyType.listT
  | PyVal.tuple _ => PyType.tupleT
  | PyVal.dict _ => PyType.dictT
  | PyVal.obj => PyType.objT

/-- `str(v)` for the values the module ever stringifies.  The transform
functions only call `str` on values that passed `check_simple_value`
(strings, ints, floats, bools), so the container cases are unreachable and
mapped to a placeholder. -/
def pyStr : PyVal → String
  | PyVal.str s => s
  | PyVal.int n => toString n
  | PyVal.float r => r
  | PyVal.bool b => cond b "True" "False"
  | PyVal.none => "None"
  | _ => "<unreachable container repr>"

/-- `isinstance(v, str)`. -/
def isStrInstance : PyVal → Bool
  | PyVal.str _ => true
  | _ => false

/-- `check_simple_value` (builder.py lines 33-42).  The source tests
`isinstance(val, str) or isinstance(val, int) or isinstance(val, float) or
isinstance(val, bool) or isinstance(val, None)` left to right with
short-circuiting.  A string/int/float/bool value satisfies one of the first
four tests and the function returns `True` (Python bools also pass
`isinstance(val, int)`).  Every other value — including `None` itself —
reaches the last test, and `isinstance(val, None)` raises `TypeError`
because `None` is not a type. -/
def check_simple_value (val : PyVal) : Except PyError Bool :=
  match val with
  | PyVal.str _ => Except.ok true
  | PyVal.int _ => Except.ok true
  | PyVal.float _ => Except.ok true
  | PyVal.bool _ => Except.ok true
  | _ => Except.error PyError.typeError

/-- `check_simple_list` (builder.py lines 76-84).  Its first statement
evaluates `isinstance(val, list) or isinstance(val, tuple)` where `val` is
the loop variable of the `for val in values` loop further down — a local
name that has not been assigned yet — so every call raises
`UnboundLocalError` before the parameter `values` is even inspected. -/
def check_simple_list (values : PyVal) : Except PyError Bool :=
  let _ := values
  Except.error PyError.unboundLocal

/-- The per-entry loop of `check_simple_dict`: for each `(key, val)` pair it
evaluates `if not check_simple_list(val) or not check_simple_value(val):
return False`, with Python's short-circuit `or` (the second call only runs
when the first returned a true value). -/
def check_simple_dict_loop : List (PyVal × PyVal) → Except PyError Bool
  | [] => Except.ok true
  | (_, v) :: rest => do
    let a ← check_simple_list v
    if !a then
      Except.ok false
    else do
      let b ← check_simple_value v
      if !b then Except.ok false
      else check_simple_dict_loop rest

/-- `check_simple_dict` (builder.py lines 111-119): `False` for non-dicts,
otherwise the entry loop above (vacuously `True` on an empty dict). -/
def check_simple_dict (dictval : PyVal) : Except PyError Bool :=
  match dictval with
  | PyVal.dict entries => check_simple_dict_loop entries
  | _ => Except.ok false

/-- `check_simple_element` (builder.py lines 146-149):
`bool(check_simple_value(value) or check_simple_list(value) or
check_simple_dict(value))`, evaluated left to right with short-circuiting. -/
def check_simple_element (value : PyVal) : Except PyError Bool := do
  let a ← check_simple_value value
  if a then Except.ok true
  else do
    let b ← check_simple_list value
    if b then Except.ok true
    else check_simple_dict value

/-- The output entity: `ItemObj` (a `QTreeWidgetItem` subclass) stripped of
its toolkit parts — its display text, the `value_type` captured by
`set_value_type` (`Option` because the constructor initialises it to
`None`), and the ordered child list built by `addChild`. -/
inductive TreeItem where
  | node (text : String) (value_type : Option PyType) (children : List TreeItem)

/-- The display text of an item. -/
def TreeItem.text : TreeItem → String
  | TreeItem.node t _ _ => t

/-- The ordered children of an item. -/
def TreeItem.children : TreeItem → List TreeItem
  | TreeItem.node _ _ cs => cs

/-- `item.addChild(c)`: appends `c` to the item's children. -/
def TreeItem.addChild : TreeItem → TreeItem → TreeItem
  | TreeItem.node t ty cs, c => TreeItem.node t ty (cs ++ [c])

/-- `item.setText(text)`: Qt requires the text argument to be a string and
raises `TypeError` otherwise. -/
def setText (v : PyVal) : Except PyError String :=
  match v with
  | PyVal.str s => Except.ok s
  | _ => Except.error PyError.typeError

/-- `transform_val_to_tree_item` (builder.py lines 45-61):
`assert check_simple_value(val)` (an exception from the check propagates, a
false result raises `AssertionError`), then a fresh `ItemObj` with text
`str(val)` and `value_type = type(val)`. -/
def transform_val_to_tree_item (val : PyVal) : Except PyError TreeItem := do
  let c ← check_simple_value val
  if !c then Except.error PyError.assertionError
  else Except.ok (TreeItem.node (pyStr val) (some (pyType val)) [])

/-- `transform_simple_val_to_tree_item` (builder.py lines 64-73):
`assert isinstance(name, str)`, `assert check_simple_value(val)`, then a
name item with the value item appended as its single child. -/
def transform_simple_val_to_tree_item (name val : PyVal) : Except PyError TreeItem := do
  if !(isStrInstance name) then Except.error PyError.assertionError
  else do
    let c ← check_simple_value val
    if !c then Except.error PyError.assertionError
    else do
      let item ← transform_val_to_tree_item name
      let vitem ← transform_val_to_tree_item val
      Except.ok (item.addChild vitem)

/-- The elements a Python `for v in val` loop would iterate; only reachable
for lists and tuples in this module (everything else is fenced off by
asserts). -/
def pyElems : PyVal → List PyVal
  | PyVal.list xs => xs
  | PyVal.tuple xs => xs
  | _ => []

/-- Mapping `transform_val_to_tree_item` over loop elements, stopping at the
first exception (as the Python loop would). -/
def transform_vals_loop : List PyVal → Except PyError (List TreeItem)
  | [] => Except.ok []
  | v :: rest => do
    let item ← transform_val_to_tree_item v
    let items ← transform_vals_loop rest
    Except.ok (item :: items)

/-- `transform_simple_list_to_tree_item` (builder.py lines 87-108).  Note
the parameter order of the source: `(val, name)`.  Its first statement,
`assert check_simple_list(val)`, evaluates `check_simple_list`, which
raises `UnboundLocalError` on every input, so the rest of the body
(`assert isinstance(name, str)`, the item construction and the element
loop) is unreachable; it is still embedded faithfully below. -/
def transform_simple_list_to_tree_item (val name : PyVal) : Except PyError TreeItem := do
  let c ← check_simple_list val
  if !c then Except.error PyError.assertionError
  else if !(isStrInstance name) then Except.error PyError.assertionError
  else do
    let t ← setText name
    let children ← transform_vals_loop (pyElems val)
    Except.ok (TreeItem.node t (some (pyType val)) children)

/-- The entry loop of `transform_simple_dict_to_tree_item` (builder.py
lines 137-142).  When neither `check_simple_value` nor `check_simple_list`
accepts a value, the source falls through to `item.addChild(vitem)` with
`vitem` still holding the previous iteration's item — or unbound on the
first iteration (`UnboundLocalError`).  The second parameter carries that
stale `vitem`. -/
def transform_simple_dict_loop :
    List (PyVal × PyVal) → Option TreeItem → Except PyError (List TreeItem)
  | [], _ => Except.ok []
  | (key, vs) :: rest, stale => do
    let a ← check_simple_value vs
    if a then do
      let vitem ← transform_simple_val_to_tree_item key vs
      let items ← transform_simple_dict_loop rest (some vitem)
      Except.ok (vitem :: items)
    else do
      let b ← check_simple_list vs
      if b then do
        let vitem ← transform_simple_list_to_tree_item key vs
        let items ← transform_simple_dict_loop rest (some vitem)
        Except.ok (vitem :: items)
      else
        match stale with
        | some vitem => do
          let items ← transform_simple_dict_loop rest (some vitem)
          Except.ok (vitem :: items)
        | Option.none => Except.error PyError.unboundLocal

/-- `transform_simple_dict_to_tree_item` (builder.py lines 122-143).
Source parameter order: `(val, name)`.  `assert isinstance(name, str)`,
`assert check_simple_dict(val)` (whose exception on any non-empty dict
propagates), then the item with one child per entry from the loop above.
`val.items()` on a non-dict would raise `AttributeError`, but that point is
unreachable: the assert only lets dicts through. -/
def transform_simple_dict_to_tree_item (val name : PyVal) : Except PyError TreeItem := do
  if !(isStrInstance name) then Except.error PyError.assertionError
  else do
    let c ← check_simple_dict val
    if !c then Except.error PyError.assertionError
    else
      match val with
      | PyVal.dict entries => do
        let t ← setText name
        let children ← transform_simple_dict_loop entries Option.none
        Except.ok (TreeItem.node t (some (pyType val)) children)
      | _ => Except.error PyError.attributeError

/-- `transform_simple_element_to_tree_item` (builder.py lines 152-167):
asserts, then the `check_simple_value` / `check_simple_list` /
`check_simple_dict` elif-chain with a final `raise ValueError`.  The source
calls the list and dict transforms as `(name, value)` although their
parameter order is `(val, name)`; the embedding reproduces those calls
verbatim. -/
def transform_simple_element_to_tree_item (name value : PyVal) : Except PyError TreeItem := do
  if !(isStrInstance name) then Except.error PyError.assertionError
  else do
    let c ← check_simple_element value
    if !c then Except.error PyError.assertionError
    else do
      let a ← check_simple_value value
      if a then transform_simple_val_to_tree_item name value
      else do
        let b ← check_simple_list value
        if b then transform_simple_list_to_tree_item name value
        else do
          let d ← check_simple_dict value
          if d then transform_simple_dict_to_tree_item name value
          else Except.error (PyError.valueError ("Unknown simple element: " ++ pyStr value))

mutual

/-- `transform_complex_element_to_tree_item` (builder.py lines 170-184), the
module's entry point (`buildTree` in the specification).  If
`check_simple_element(value)` returns a true value, delegate to the simple
transform (its exception propagates).  Otherwise build an item with
`setText(name)` and `set_value_type(value)` and: for a dict, append one
recursively transformed child per entry; for a list or tuple, the source
executes `item.addChild(transform_complex_element_to_tree_item(name, val))`
where `val` is the dict branch's loop variable — unassigned on this path —
so Python raises `UnboundLocalError`; any other value falls through and the
childless item is returned. -/
def transform_complex_element_to_tree_item (name value : PyVal) : Except PyError TreeItem := do
  let c ← check_simple_element value
  if c then transform_simple_element_to_tree_item name value
  else do
    let t ← setText name
    match value with
    | PyVal.dict entries => do
      let children ← transform_complex_dict_loop entries
      Except.ok (TreeItem.node t (some (pyType value)) children)
    | PyVal.list _ => Except.error PyError.unboundLocal
    | PyVal.tuple _ => Except.error PyError.unboundLocal
    | _ => Except.ok (TreeItem.node t (some (pyType value)) [])
termination_by sizeOf value
decreasing_by all_goals simp_wf

/-- The `for key, val in value.items()` loop of the dict branch: one
recursive transform per entry, in insertion order. -/
def transform_complex_dict_loop :
    List (PyVal × PyVal) → Except PyError (List TreeItem)
  | [] => Except.ok []
  | (key, val) :: rest => do
    let child ← transform_complex_element_to_tree_item key val
    let items ← transform_complex_dict_loop rest
    Except.ok (child :: items)
termination_by entries => sizeOf entries
decreasing_by all_goals simp_wf <;> omega

end

/-! ## Schema checking and the namedtuple model factory -/

/-- A schema dict, as `check_schema`/`model_builder` consume it: string
keys (as in the JSON schema files the module is written for) mapped to
values, in insertion order. -/
abbrev Schema := List (String × PyVal)

/-- `schema[key]` / `key in schema`: Python dict lookup (keys are unique in
a dict, so the first match is the only one). -/
def schemaLookup (schema : Schema) (key : String) : Option PyVal :=
  (schema.find? (fun kv => kv.fst == key)).map (fun kv => kv.snd)

/-- Python `x != "..."` between a value and a string literal: strings
compare by contents, any other value is unequal (no exception). -/
def pyEqStr : PyVal → String → Bool
  | PyVal.str s, t => s == t
  | _, _ => false

/-- Message raised by `check_schema` when `"type"` is missing. -/
def messNoType : String :=
  "Schema does not contain a type field. Type field is required for defining model type. Please change your schema file accordingly"

/-- First half of the unsupported-type message (the schema's type string is
spliced in between the two halves). -/
def messBadTypeA : String := "Specified schema type: "

/-- Second half of the unsupported-type message. -/
def messBadTypeB : String :=
  " is not supported only Entry and Dictionary are supported as schema types. If your schema is conceptually equivalent to that of Entry or Dictionary please specify in type field the equivalent entity: Entry , Dictionary, and save your old value to a different field."

/-- Message raised by `check_schema` when `"name"` is missing. -/
def messNoName : String :=
  "Please specify a name field with a unique value for your schema to distinguish it"

/-- Message raised by `model_builder` when any key name fails its
character check. -/
def messBadKeys : String :=
  "Some of the key names are not supported please correct them, so that they don\x27t have any special characters as well as space. They should not start with a number as well."

/-- `check_schema` (builder.py lines 187-206).  Raises `ValueError` when
`"type"` is missing, when the type value is neither `"Entry"` nor
`"Dictionary"` (the source tests `model_name != "Entry" and model_name !=
"Dictionary"`; the embedding's `if` is that condition negated), or when
`"name"` is missing.  When the type value is not a string the unequal
branch is taken and building its message evaluates `"Specified schema
type: " + model_name`, which raises `TypeError` for a non-string. -/
def check_schema (schema : Schema) : Except PyError Unit :=
  match schemaLookup schema "type" with
  | Option.none => Except.error (PyError.valueError messNoType)
  | some model_name =>
    if pyEqStr model_name "Entry" || pyEqStr model_name "Dictionary" then
      match schemaLookup schema "name" with
      | Option.none => Except.error (PyError.valueError messNoName)
      | some _ => Except.ok ()
    else
      match model_name with
      | PyVal.str s => Except.error (PyError.valueError (messBadTypeA ++ s ++ messBadTypeB))
      | _ => Except.error PyError.typeError

/-- The result of `collections.namedtuple(model_name, keys)`: a class with
a type name and field names.  (Unreachable in `model_builder`, see
`claim_C10_model_builder_always_fails`.) -/
structure PyNamedtuple where
  typename : String
  fields : List String

/-- The allow-list string of `model_builder` (builder.py line 218). -/
def allowedChars : String :=
  "wxcvbnqsdfghjklmazertyuiopWXCVBNQSDFGHJKLMAZERTYUIOP0123456789"

/-- The per-character test of `model_builder`: `c in [allowedChars]`.  The
right-hand side is a one-element Python list holding the whole 62-character
allow-list string, so the membership test compares the single-character
string `c` with the entire allow-list and is false for every character. -/
def keyCharAllowed (c : Char) : Bool :=
  [allowedChars].contains (Char.toString c)

/-- `model_builder` (builder.py lines 209-228): run `check_schema`
(exceptions propagate), double the type name into `model_name` (the source
computes `model_name += model_name + "Model"`), collect the keys, filter
the keys whose characters do not all pass `keyCharAllowed` into
`bad_keys` (Python's `for c in k` iterates the characters of `k`), raise
`ValueError` if `bad_keys` is non-empty, else return the namedtuple. -/
def model_builder (schema : Schema) : Except PyError PyNamedtuple :=
  match check_schema schema with
  | Except.error e => Except.error e
  | Except.ok _ =>
    match schemaLookup schema "type" with
    | Option.none => Except.error PyError.keyError
    | some tv =>
      match tv with
      | PyVal.str mn =>
        let model_name := mn ++ (mn ++ "Model")
        let keys := schema.map (fun kv => kv.fst)
        let bad_keys := keys.filter (fun k => !(k.data.all keyCharAllowed))
        if bad_keys.isEmpty then Except.ok ⟨model_name, keys⟩
        else Except.error (PyError.valueError messBadKeys)
      | _ => Except.error PyError.typeError


/-- A list nested `n` levels deep around the scalar `1`. -/
def deepNest : Nat → PyVal
  | 0 => PyVal.int 1
  | n + 1 => PyVal.list [deepNest n]

/-- Does a run of the builder report the spec's depth error? -/
def is_depth_exceeded : Except PyError TreeItem → Bool
  | Except.error PyError.depthExceeded => true
  | _ => false

/-- A concrete schema accepted by `check_schema`. -/
def demoSchema : Schema :=
  [("type", PyVal.str "Entry"), ("name", PyVal.str "myschema")]

/-! ## General shape of the classifier and of the complex transform -/

/-- The set of values that `check_simple_value` accepts without raising:
strings, ints, floats and bools — note that `None` is *not* among them,
because `isinstance(val, None)` raises before it could be recognised. -/
def isSimpleScalar : PyVal → Bool
  | PyVal.str _ => true
  | PyVal.int _ => true
  | PyVal.float _ => true
  | PyVal.bool _ => true
  | _ => false

/-- `check_simple_value` in closed form: `True` on the four scalar shapes,
`TypeError` on everything else. -/
theorem check_simple_value_eq (v : PyVal) :
    check_simple_value v =
      if isSimpleScalar v then Except.ok true else Except.error PyError.typeError := by
  cases v <;> rfl

/-- `check_simple_element` in closed form: because its very first step is
`check_simple_value`, it answers `True` on the scalars and raises
`TypeError` on every other value — it never reaches the list or dict
checks. -/
theorem check_simple_element_eq (v : PyVal) :
    check_simple_element v =
      if isSimpleScalar v then Except.ok true else Except.error PyError.typeError := by
  cases v <;> rfl

/-- The result of the simple-element transform on a scalar value: an
`AssertionError` when the name is not a string, otherwise the named node
with the single stringified child. -/
theorem transform_simple_element_scalar (name v : PyVal)
    (h : isSimpleScalar v = true) :
    transform_simple_element_to_tree_item name v =
      if isStrInstance name then
        Except.ok (TreeItem.node (pyStr name) (some (pyType name))
          [TreeItem.node (pyStr v) (some (pyType v)) []])
      else Except.error PyError.assertionError := by
  cases v <;> first
    | (cases name <;> rfl)
    | simp [isSimpleScalar] at h

/-- The complex transform in closed form: scalars go to the simple
transform, every other value raises `TypeError` from the classifier — the
recursive dict/list machinery is dead code. -/
theorem transform_complex_eq (name v : PyVal) :
    transform_complex_element_to_tree_item name v =
      if isSimpleScalar v then transform_simple_element_to_tree_item name v
      else Except.error PyError.typeError := by
  cases v <;> simp only [transform_complex_element_to_tree_item] <;> rfl

/-! ## Claim theorems -/

/-- Claim C1.  The claim says the value classifier is total and never
raises, falling through to the Complex kind.  In fact `check_simple_value`
evaluates `isinstance(val, None)` for every value that is not a
string/int/float/bool, which raises `TypeError`, so `check_simple_element`
raises on `None`, on every dict, list, tuple and arbitrary object. -/
theorem claim_C1_classifier_not_total :
    check_simple_element PyVal.none = Except.error PyError.typeError ∧
    check_simple_element (PyVal.dict [(PyVal.str "a",
      PyVal.dict [(PyVal.str "b", PyVal.int 1)])]) = Except.error PyError.typeError ∧
    check_simple_element (PyVal.list [PyVal.int 1]) = Except.error PyError.typeError ∧
    check_simple_element (PyVal.tuple []) = Except.error PyError.typeError ∧
    check_simple_element PyVal.obj = Except.error PyError.typeError :=
  ⟨rfl, rfl, rfl, rfl, rfl⟩

/-- Claim C2.  The claim says the simple-value predicate is true for
exactly strings, ints, floats, bools and null.  It does hold for the first
four, but on `None` the code raises `TypeError` instead of returning
`True`, because the null test is `isinstance(val, None)` and `None` is not
a type. -/
theorem claim_C2_null_not_simple_value :
    check_simple_value (PyVal.str "a") = Except.ok true ∧
    check_simple_value (PyVal.int 3) = Except.ok true ∧
    check_simple_value (PyVal.float "2.5") = Except.ok true ∧
    check_simple_value (PyVal.bool true) = Except.ok true ∧
    check_simple_value PyVal.none = Except.error PyError.typeError :=
  ⟨rfl, rfl, rfl, rfl, rfl⟩

/-- Claim C3.  The claim says `buildTree("n", [{"a":1},{"a":2}])` yields a
node with one recursively built child per element.  In fact the call
raises `TypeError` already inside `check_simple_element` (and even if the
list branch were reached, it would read the unassigned loop variable `val`
and add at most one child). -/
theorem claim_C3_complex_list_build_raises :
    transform_complex_element_to_tree_item (PyVal.str "n")
      (PyVal.list [PyVal.dict [(PyVal.str "a", PyVal.int 1)],
                   PyVal.dict [(PyVal.str "a", PyVal.int 2)]]) =
      Except.error PyError.typeError := by
  simp only [transform_complex_element_to_tree_item]
  rfl

/-- Claim C4.  The claim says the simple-list predicate returns true
exactly on lists/tuples of simple values (empty included).  In fact
`check_simple_list` raises `UnboundLocalError` on every input — lists of
simple values, the empty list, and non-lists alike — because its guard
reads the loop variable `val` before any assignment. -/
theorem claim_C4_simple_list_check_always_raises (v : PyVal) :
    check_simple_list v = Except.error PyError.unboundLocal := rfl

/-- Claim C5.  The claim says the simple-dict predicate is true exactly on
mappings whose every value is a simple value OR a simple list.  In fact on
any non-empty mapping — even `{"a": 1}`, whose every value is simple — the
per-key test first calls `check_simple_list`, which raises
`UnboundLocalError`; and the source condition `not check_simple_list(val)
or not check_simple_value(val)` would anyway demand each value to be both
a simple list and a simple value. -/
theorem claim_C5_simple_dict_check_raises :
    check_simple_dict (PyVal.dict [(PyVal.str "a", PyVal.int 1)]) =
      Except.error PyError.unboundLocal ∧
    check_simple_dict (PyVal.dict [(PyVal.str "a", PyVal.str "b")]) =
      Except.error PyError.unboundLocal :=
  ⟨rfl, rfl⟩

/-- Claim C6.  The claim says that for every string label and every
SimpleValue value (string/int/float/bool/null) the build yields a node
labeled with the label and exactly one child labeled `str(value)`.  That
is exactly what happens for `("x", 5)` — but for the null value, which the
claim includes, the build raises `TypeError` instead. -/
theorem claim_C6_simple_value_build :
    transform_complex_element_to_tree_item (PyVal.str "x") (PyVal.int 5) =
      Except.ok (TreeItem.node "x" (some PyType.strT)
        [TreeItem.node "5" (some PyType.intT) []]) ∧
    transform_complex_element_to_tree_item (PyVal.str "x") PyVal.none =
      Except.error PyError.typeError :=
  ⟨by simp only [transform_complex_element_to_tree_item]; rfl,
   by simp only [transform_complex_element_to_tree_item]; rfl⟩

/-- Claim C7.  The claim says `buildTree("xs", [1,2,3])` yields a node
with three children labeled "1", "2", "3".  In fact the call raises
`TypeError` inside `check_simple_element` before any list handling (and
the simple-list transform behind it raises `UnboundLocalError` on every
input anyway). -/
theorem claim_C7_simple_list_build_raises :
    transform_complex_element_to_tree_item (PyVal.str "xs")
      (PyVal.list [PyVal.int 1, PyVal.int 2, PyVal.int 3]) =
      Except.error PyError.typeError := by
  simp only [transform_complex_element_to_tree_item]
  rfl

/-- Claim C8, counterexample.  The claim says a custom object makes
`buildTree` fail with `UnsupportedValueError`.  In fact it fails with
`TypeError` from the classifier; no `UnsupportedValueError` exists in the
code. -/
theorem claim_C8_counterexample_custom_object :
    transform_complex_element_to_tree_item (PyVal.str "x") PyVal.obj =
      Except.error PyError.typeError ∧
    transform_complex_element_to_tree_item (PyVal.str "x") PyVal.obj ≠
      Except.error PyError.unsupportedValue := by
  have h : transform_complex_element_to_tree_item (PyVal.str "x") PyVal.obj =
      Except.error PyError.typeError := by
    simp only [transform_complex_element_to_tree_item]
    rfl
  exact ⟨h, by rw [h]; simp⟩

/-- Claim C8, amended.  The errors the code actually produces: `TypeError`
for every value outside the four scalar shapes (custom objects, but also
mappings, lists, tuples and null), and `AssertionError` when the label is
not a string and the value is a scalar; every failure is a propagated
exception, so no partial tree is ever returned. -/
theorem claim_C8_error_behavior (name value : PyVal) :
    (isSimpleScalar value = false →
      transform_complex_element_to_tree_item name value =
        Except.error PyError.typeError) ∧
    (isSimpleScalar value = true → isStrInstance name = false →
      transform_complex_element_to_tree_item name value =
        Except.error PyError.assertionError) := by
  constructor
  · intro h
    rw [transform_complex_eq, if_neg (by simp [h])]
  · intro h hn
    rw [transform_complex_eq, if_pos h, transform_simple_element_scalar name value h,
      if_neg (by simp [hn])]

/-- Witness for `claim_C8_error_behavior` at the concrete inputs
`(0, SomeCustomObject())` and `(0, 5)`. -/
theorem claim_C8_error_behavior_witness :
    transform_complex_element_to_tree_item (PyVal.int 0) PyVal.obj =
      Except.error PyError.typeError ∧
    transform_complex_element_to_tree_item (PyVal.int 0) (PyVal.int 5) =
      Except.error PyError.assertionError :=
  ⟨(claim_C8_error_behavior (PyVal.int 0) PyVal.obj).1 rfl,
   (claim_C8_error_behavior (PyVal.int 0) (PyVal.int 5)).2 rfl rfl⟩

/-- Claim C9, counterexample.  The claim says values nested deeper than
the configured maximum depth fail with `DepthExceededError`.  The code has
no depth guard at all: a list nested 1001 levels deep (past the
specification's suggested default limit of 1000) fails immediately with
`TypeError` from the classifier, not with any depth error. -/
theorem claim_C9_counterexample_deep_nesting :
    transform_complex_element_to_tree_item (PyVal.str "n") (deepNest 1001) =
      Except.error PyError.typeError ∧
    transform_complex_element_to_tree_item (PyVal.str "n") (deepNest 1001) ≠
      Except.error PyError.depthExceeded := by
  have hd : deepNest 1001 = PyVal.list [deepNest 1000] := rfl
  have h : transform_complex_element_to_tree_item (PyVal.str "n") (deepNest 1001) =
      Except.error PyError.typeError := by
    rw [hd, transform_complex_eq]
    rfl
  exact ⟨h, by rw [h]; simp⟩

/-- Claim C9, amended.  `buildTree` never fails with `DepthExceededError`
on any input: there is no depth guard in the code; instead every
non-scalar value (however deeply nested) fails immediately with
`TypeError` from the classifier, so the recursion never follows the input
depth. -/
theorem claim_C9_never_depth_exceeded (name value : PyVal) :
    is_depth_exceeded (transform_complex_element_to_tree_item name value) = false := by
  rw [transform_complex_eq]
  by_cases h : isSimpleScalar value = true
  · rw [if_pos h, transform_simple_element_scalar name value h]
    by_cases hn : isStrInstance name = true
    · rw [if_pos hn]; rfl
    · rw [if_neg hn]; rfl
  · rw [if_neg h]; rfl

/-- Claim C10.  Whenever `check_schema` accepts a schema, the schema
contains the key `"type"` (a non-empty name), every character test
`c in [allowedChars]` compares a one-character string with the whole
62-character allow-list and fails, so `"type"` lands in `bad_keys` and
`model_builder` raises `ValueError` instead of ever returning a
namedtuple. -/
theorem claim_C10_model_builder_always_fails (schema : Schema)
    (h : check_schema schema = Except.ok ()) :
    model_builder schema = Except.error (PyError.valueError messBadKeys) := by
  have hty : ∃ s, schemaLookup schema "type" = some (PyVal.str s) := by
    unfold check_schema at h
    cases hl : schemaLookup schema "type" with
    | none => rw [hl] at h; simp at h
    | some tv =>
      rw [hl] at h
      cases tv with
      | str s => exact ⟨s, rfl⟩
      | int n => simp [pyEqStr] at h
      | float r => simp [pyEqStr] at h
      | bool b => simp [pyEqStr] at h
      | none => simp [pyEqStr] at h
      | list xs => simp [pyEqStr] at h
      | tuple xs => simp [pyEqStr] at h
      | dict es => simp [pyEqStr] at h
      | obj => simp [pyEqStr] at h
  rcases hty with ⟨s, hl⟩
  have hmem : "type" ∈ schema.map (fun kv => kv.fst) := by
    rcases Option.map_eq_some'.mp hl with ⟨kv, hfind, hsnd⟩
    have h1 : kv ∈ schema := List.mem_of_find?_eq_some hfind
    have h2 := List.find?_some hfind
    have h3 : kv.fst = "type" := by simpa using h2
    exact h3 ▸ List.mem_map_of_mem (fun kv => kv.fst) h1
  have hbad : "type" ∈ (schema.map (fun kv => kv.fst)).filter
      (fun k => !(k.data.all keyCharAllowed)) := by
    rw [List.mem_filter]
    exact ⟨hmem, by decide⟩
  unfold model_builder
  rw [h, hl]
  cases hfe : (schema.map (fun kv => kv.fst)).filter
      (fun k => !(k.data.all keyCharAllowed)) with
  | nil => rw [hfe] at hbad; cases hbad
  | cons a l => simp [hfe]

/-- Witness for `claim_C10_model_builder_always_fails` at `demoSchema`. -/
theorem claim_C10_model_builder_always_fails_witness :
    check_schema demoSchema = Except.ok () ∧
    model_builder demoSchema = Except.error (PyError.valueError messBadKeys) :=
  ⟨rfl, claim_C10_model_builder_always_fails demoSchema rfl⟩
